import Mathlib

/-
Shallow embedding of gql2ts, packages/from-query/index.ts (the only source
file under src/).  The structured GraphQL schema and the parsed document are
external collaborators in the source; they are modelled here as inductive
trees.  Hooks (the IOptions formatting strategy) and the type mapping table
are parameters of doIt in the source and are parameters here as well.
Machine side effects are modelled explicitly: console diagnostics become a
returned list of strings, and uncaught JS exceptions (TypeErrors from
dereferencing undefined, and explicit throws) become Except.error values
whose constructor records the crash site.

Renamings forced by the verification environment (the semantics are
unchanged, only identifiers differ from the source):
  - the isPartial fields of IChildren / IComplexTypeSignature are named
    isPartialFlag here;
  - the wrapPartial hook is named wrapPartialFn, and the helper
    wrapPossiblePartial is named wrapPossiblePartialFn;
  - the VariableDefinitionNode fields variable / type are named
    varName / varType.
-/

namespace FromQuery

/-- JS truthiness of a nullable string: null / undefined and the empty
string are falsy (used for the replacement argument of handleRegularType,
line 93 of the source). -/
def jsTruthy : Option String → Bool
  | some s => !s.isEmpty
  | none => false

/-- JS a || b for a nullable string a and string b: returns a when a is
truthy (non-null, non-empty), else b. -/
def jsOr (a : Option String) (b : String) : String :=
  match a with
  | some s => if s.isEmpty then b else s
  | none => b

/-- JS template interpolation of a nullable string: null renders as the
text "null" (relevant in buildAdditionalTypes when
generateSubTypeInterfaceName returned null). -/
def jsNameText : Option String → String
  | some s => s
  | none => "null"

/-- Schema type trees: the structured GraphQL schema object is an external
collaborator of the source; each GraphQLType reachable from the schema is
modelled as a finite tree over the variants the source discriminates
(scalar, enum, object, input object, union, list, non-null).  Object and
input-object field maps are association lists in declaration order; union
members are listed in schema declaration order. -/
inductive GQLType : Type where
  | scalar (name : String)
  | enumT (name : String) (values : List String)
  | object (name : String) (fields : List (String × GQLType))
  | inputObject (name : String) (fields : List (String × GQLType))
  | union (name : String) (members : List GQLType)
  | list (ofType : GQLType)
  | nonNull (ofType : GQLType)
deriving Repr

/-- Modelled from the spec: isList of the util package (not under src/);
true exactly on List wrappers ("peel List", spec 4.3). -/
def isList : GQLType → Bool
  | GQLType.list _ => true
  | _ => false

/-- Modelled from the spec: isNonNullable of the util package (not under
src/); true exactly on NonNull wrappers ("peel NonNull", spec 4.3). -/
def isNonNullable : GQLType → Bool
  | GQLType.nonNull _ => true
  | _ => false

/-- the graphql helper getNamedType: strip list and non-null wrappers down to the
named type (used at source line 190). -/
def getNamedType : GQLType → GQLType
  | GQLType.list t => getNamedType t
  | GQLType.nonNull t => getNamedType t
  | t => t

/-- the graphql helper isCompositeType: types with sub-fields selectable on them;
objects and unions in this model (source lines 170, 191). -/
def isCompositeType : GQLType → Bool
  | GQLType.object _ _ => true
  | GQLType.union _ _ => true
  | _ => false

/-- First-match association-list lookup (JS object property access on a
field map built by insertion). -/
def assocLookup {α : Type} : List (String × α) → String → Option α
  | [], _ => none
  | (k, v) :: rest, n => if k = n then some v else assocLookup rest n

/-- getFields() of an object or input object: its field map; other kinds
have none (the source only calls getFields on objects and input objects). -/
def getFieldsOf : GQLType → List (String × GQLType)
  | GQLType.object _ fields => fields
  | GQLType.inputObject _ fields => fields
  | _ => []

/-- type.getFields()[name]: the declared type of the field, if any. -/
def lookupField (t : GQLType) (n : String) : Option GQLType :=
  assocLookup (getFieldsOf t) n

/-- type.toString() for the types that reach handleRegularType, and the
name of a named type in general (source line 92). -/
def typeToString : GQLType → String
  | GQLType.scalar n => n
  | GQLType.enumT n _ => n
  | GQLType.object n _ => n
  | GQLType.inputObject n _ => n
  | GQLType.union n _ => n
  | GQLType.list t => "[" ++ typeToString t ++ "]"
  | GQLType.nonNull t => typeToString t ++ "!"

/-- The structured schema collaborator: the three operation root types
(each possibly absent) and the named-type table behind getType(name). -/
structure GQLSchema : Type where
  queryType : Option GQLType
  mutationType : Option GQLType
  subscriptionType : Option GQLType
  namedTypes : List (String × GQLType)
deriving Repr

/-- parsedSchema.getType(name) (source lines 82, 252, 322). -/
def schemaGetType (schema : GQLSchema) (n : String) : Option GQLType :=
  assocLookup schema.namedTypes n

/-- Syntactic variable type nodes of the document tree (TypeNode). -/
inductive TypeNode : Type where
  | namedType (name : String)
  | listType (ofType : TypeNode)
  | nonNullType (ofType : TypeNode)
deriving Repr, DecidableEq

/-- type.name.value for the NamedType nodes that reach handleRegularType
through convertVariable (wrappers never reach it: convertVariable peels
them first). -/
def typeNodeName : TypeNode → String
  | TypeNode.namedType n => n
  | TypeNode.listType _ => ""
  | TypeNode.nonNullType _ => ""

/-- Selection nodes of the document tree.  A directive is identified by its
name (d.name.value is all the source reads).  The selectionSet of a field is
optional; fragment spreads carry no children (the fragment body is emitted
independently). -/
inductive Selection : Type where
  | field (name : String) (aliasName : Option String) (directives : List String)
      (selectionSet : Option (List Selection))
  | fragmentSpread (name : String) (directives : List String)
  | inlineFragment (typeCondition : Option String) (directives : List String)
      (selections : List Selection)
deriving Repr

/-- OperationTypeNode of graphql: the operation kind strings. -/
inductive OperationTypeNode : Type where
  | query
  | mutation
  | subscription
deriving Repr, DecidableEq

/-- VariableDefinitionNode: variable name and its syntactic type (fields
variable / type in the source, renamed varName / varType). -/
structure VariableDefinitionNode : Type where
  varName : String
  varType : TypeNode
deriving Repr

/-- Document definitions: OperationDefinition (kind, optional name,
variable definitions, top-level selection set) and FragmentDefinition
(name, type condition, selection set).  Other definition kinds throw in
the source and are not representable here. -/
inductive Definition : Type where
  | operationDefinition (operation : OperationTypeNode) (name : Option String)
      (variableDefinitions : List VariableDefinitionNode) (selections : List Selection)
  | fragmentDefinition (name : String) (typeCondition : String)
      (selections : List Selection)
deriving Repr

/-- IComplexTypeSignature of the source (name may be null when
generateSubTypeInterfaceName declined to name the sub-type).  The source
field isPartial is named isPartialFlag here. -/
structure IComplexTypeSignature : Type where
  iface : String
  isPartialFlag : Bool
  name : Option String
deriving Repr, DecidableEq

/-- IChildren, the return record of one getChildSelections call.  The
source field isPartial is named isPartialFlag here. -/
structure IChildren : Type where
  iface : String
  isFragment : Bool
  isPartialFlag : Bool
  complexTypes : List IComplexTypeSignature
deriving Repr, DecidableEq

/-- The merged type mapping table (ITypeMap): scalar name to output token,
with the default stored under the key __DEFAULT, as in the source where
TypeMap.__DEFAULT is an ordinary property of the merged object. -/
def ITypeMap : Type := List (String × String)

/-- TypeMap[key] property access. -/
def tmLookup (tm : ITypeMap) (k : String) : Option String :=
  assocLookup tm k

/-- TypeMap.__DEFAULT; interpolating a genuinely absent property would
render as "undefined" in JS, recorded here for totality (the merged
default table always carries __DEFAULT). -/
def tmDefault (tm : ITypeMap) : String :=
  jsOr (tmLookup tm "__DEFAULT") "undefined"

/-- IOptions, the formatting strategy: the hooks destructured at source
lines 50-62.  wrapPartial is named wrapPartialFn here. -/
structure IOptions : Type where
  buildRootInterfaceName : Definition → (Definition → String) → (String → String) → String
  formatFragmentInterface : String → List String → List String → String
  formatInterface : String → List String → String
  formatVariableInterface : String → List String → String
  wrapList : String → String
  wrapPartialFn : String → String
  generateSubTypeInterfaceName : String → Nat → Option String
  printType : String → Bool → String
  formatInput : String → Bool → String → String
  generateFragmentName : String → String
  generateQueryName : Definition → String

/-- Crash / throw sites of the conversion.  The source aborts either by an
explicit throw or by an uncaught TypeError from dereferencing undefined;
each constructor records which site fired:
  - typeErrorRootGetFields: operationFields.getFields() at line 178 with
    the requested root type absent from the schema;
  - typeErrorGetNamedTypeOfUndefined: getNamedType(field.type) at line 190
    with field unresolved, reached after the console.log diagnostic of
    line 189 (selection has a nested selection set);
  - typeErrorConvertTypeOfUndefined: convertToType(field.type, ...) at
    line 242 with field unresolved and no nested selection set — reached
    without any diagnostic being printed. -/
inductive Err : Type where
  | typeErrorRootGetFields
  | typeErrorGetNamedTypeOfUndefined (fieldName : String)
  | typeErrorConvertTypeOfUndefined (fieldName : String)
deriving Repr, DecidableEq

/-- One output record per document definition (source lines 314-318 and
330-334).  The source field variables is named variablesText here. -/
structure OutputRecord : Type where
  variablesText : String
  interface : String
  additionalTypes : List String
deriving Repr, DecidableEq

/-- handleEnum (source lines 75-78): quote each enum value and join with
the union bar, then apply printType. -/
def handleEnum (o : IOptions) (values : List String) (isNonNull : Bool) : String :=
  o.printType (String.intercalate " | " (values.map (fun v => "\x27" ++ v ++ "\x27"))) isNonNull

/-- handleRegularType (source lines 91-96): showValue is replacement ||
typeValue; the table is consulted at showValue and falls back to showValue
itself when a truthy replacement was supplied, else to the default token. -/
def handleRegularType (o : IOptions) (tm : ITypeMap) (typeValue : String)
    (isNonNull : Bool) (replacement : Option String) : String :=
  let showValue : String := jsOr replacement typeValue
  let show_ : String :=
    jsOr (tmLookup tm showValue) (if jsTruthy replacement then showValue else tmDefault tm)
  o.printType show_ isNonNull

/-- convertToType (source lines 108-118): peel List (recursing non-null
false, wrapping), peel NonNull (recursing non-null true), enums through
handleEnum, everything else through handleRegularType. -/
def convertToType (o : IOptions) (tm : ITypeMap) :
    GQLType → Bool → Option String → String
  | GQLType.list ofType, isNonNull, replacement =>
      o.printType (o.wrapList (convertToType o tm ofType false replacement)) isNonNull
  | GQLType.nonNull ofType, _, replacement =>
      convertToType o tm ofType true replacement
  | GQLType.enumT _ values, isNonNull, _ =>
      handleEnum o values isNonNull
  | t, isNonNull, replacement =>
      handleRegularType o tm (typeToString t) isNonNull replacement

/-- handleInputObject (source lines 67-73), applied to the field map of an
input object: every field line is optional and converted through
convertToType with no replacement. -/
def handleInputObject (o : IOptions) (tm : ITypeMap)
    (fields : List (String × GQLType)) (isNonNull : Bool) : String :=
  let variableDeclarations : String :=
    String.intercalate "\n    "
      (fields.map (fun v => o.formatInput v.fst true (convertToType o tm v.snd false none)))
  o.printType ("\x7b\n    " ++ variableDeclarations ++ "\n  \x7d") isNonNull

/-- handleNamedTypeInput (source lines 80-89): a NamedType node with a
non-empty name whose schema type is an enum or input object is handled
specially; every other case yields undefined. -/
def handleNamedTypeInput (o : IOptions) (tm : ITypeMap) (schema : GQLSchema)
    (t : TypeNode) (isNonNull : Bool) : Option String :=
  match t with
  | TypeNode.namedType n =>
    if n = "" then none
    else
      match schemaGetType schema n with
      | some (GQLType.enumT _ values) => some (handleEnum o values isNonNull)
      | some (GQLType.inputObject _ fields) => some (handleInputObject o tm fields isNonNull)
      | _ => none
  | _ => none

/-- convertVariable (source lines 98-106): peel syntactic list / non-null
wrappers, then handleNamedTypeInput || handleRegularType. -/
def convertVariable (o : IOptions) (tm : ITypeMap) (schema : GQLSchema) :
    TypeNode → Bool → Option String → String
  | TypeNode.listType ofType, isNonNull, replacement =>
      o.printType (o.wrapList (convertVariable o tm schema ofType false replacement)) isNonNull
  | TypeNode.nonNullType ofType, _, replacement =>
      convertVariable o tm schema ofType true replacement
  | t, isNonNull, replacement =>
      jsOr (handleNamedTypeInput o tm schema t isNonNull)
        (handleRegularType o tm (typeNodeName t) isNonNull replacement)

/-- The recognized conditional directives (source line 120). -/
def UndefinedDirectives : List String := ["include", "skip"]

/-- isUndefinedFromDirective (source lines 122-134).  First component: the
returned boolean (some recognized directive present).  Second component:
the unknown-directive names printed to console.error, modelling the
diagnostic side channel (empty when nothing is printed). -/
def isUndefinedFromDirective (directives : List String) : Bool × List String :=
  if directives.isEmpty then (false, [])
  else
    let badDirectives := directives.filter (fun d => !(UndefinedDirectives.contains d))
    let hasDirectives := directives.any (fun d => UndefinedDirectives.contains d)
    (hasDirectives, badDirectives)

/-- getOperationFields (source lines 136-147) without the final
dereference: the root type for the operation kind, absent when the schema
does not define one.  The throw of the default branch is unreachable: the
three OperationTypeNode kinds are exhaustive. -/
def getOperationFields (schema : GQLSchema) : OperationTypeNode → Option GQLType
  | OperationTypeNode.query => schema.queryType
  | OperationTypeNode.mutation => schema.mutationType
  | OperationTypeNode.subscription => schema.subscriptionType

/-- wrapPossiblePartial (source lines 149-155). -/
def wrapPossiblePartialFn (o : IOptions) (pp : IChildren) : String :=
  if pp.isPartialFlag then o.wrapPartialFn pp.iface
  else pp.iface

/-- flattenComplexTypes (source lines 157-159): concatenate the
complexTypes arrays of the children in order. -/
def flattenComplexTypes (children : List IChildren) : List IComplexTypeSignature :=
  children.foldl (fun acc child => acc ++ child.complexTypes) []

/-- Field resolution of a Field selection (source lines 169-179): a
composite parent resolves through its own field map — a union through the
first member, in declaration order, declaring the field —; no parent (or a
non-composite one) resolves against the root type for the operation kind,
crashing when that root type is absent from the schema. -/
def resolveField (schema : GQLSchema) (operation : OperationTypeNode)
    (parent : Option GQLType) (fieldName : String) : Except Err (Option GQLType) :=
  match parent with
  | some p =>
    if isCompositeType p then
      match p with
      | GQLType.union _ members =>
          Except.ok (members.findSome? (fun t => lookupField t fieldName))
      | _ => Except.ok (lookupField p fieldName)
    else
      match getOperationFields schema operation with
      | some root => Except.ok (lookupField root fieldName)
      | none => Except.error Err.typeErrorRootGetFields
  | none =>
    match getOperationFields schema operation with
    | some root => Except.ok (lookupField root fieldName)
    | none => Except.error Err.typeErrorRootGetFields

/-- The intersection-operand composition of the nested selection results of a Field
results (source lines 198-240, without the flattening push of line 202
which the caller performs): partition into fragments and non-fragments,
split the non-fragments into the definite and the partial group, build one
object-literal body per non-empty group — the definite one contributes its
generated name (or the body itself when naming declined) and a non-partial
complex-type entry, the partial one is wrapped by wrapPartialFn and
contributes the wrapped body plus a partial complex-type entry —, then
append the fragments through wrapPossiblePartialFn.  Returns (andOps, the
complex types generated at this node). -/
def composeAndOps (o : IOptions) (selectionName indentation : String)
    (selections : List IChildren) : List String × List IComplexTypeSignature :=
  let nonFragments := selections.filter (fun s => !s.isFragment)
  let fragments := selections.filter (fun s => s.isFragment)
  let nonPartialNonFragments := nonFragments.filter (fun nf => !nf.isPartialFlag)
  let partialNonFragments := nonFragments.filter (fun nf => nf.isPartialFlag)
  let builder1 : String :=
    "\x7b\n" ++ String.intercalate "\n" (nonPartialNonFragments.map (fun f => f.iface))
      ++ "\n" ++ indentation ++ "\x7d"
  let name1 := o.generateSubTypeInterfaceName selectionName 0
  let op1 : List String :=
    if nonPartialNonFragments.isEmpty then []
    else [match name1 with
          | none => builder1
          | some n => n]
  let cts1 : List IComplexTypeSignature :=
    if nonPartialNonFragments.isEmpty then [] else [⟨builder1, false, name1⟩]
  let count1 : Nat := if nonPartialNonFragments.isEmpty then 0 else 1
  let builder2 : String :=
    o.wrapPartialFn
      ("\x7b\n" ++ String.intercalate "\n" (partialNonFragments.map (fun f => f.iface))
        ++ "\n" ++ indentation ++ "\x7d")
  let name2 := o.generateSubTypeInterfaceName selectionName count1
  let op2 : List String := if partialNonFragments.isEmpty then [] else [builder2]
  let cts2 : List IComplexTypeSignature :=
    if partialNonFragments.isEmpty then [] else [⟨builder2, true, name2⟩]
  let fragOps := fragments.map (wrapPossiblePartialFn o)
  (op1 ++ op2 ++ fragOps, cts1 ++ cts2)

mutual

/-- getChildSelections (source lines 161-277), the selection walker.  A
Field selection resolves its field, folds the conditional-directive check
into the inherited isUndefined flag, walks its nested selections (if any)
with the named composite type of the field as the new parent and a fresh (false)
inherited flag, composes the intersection operands through composeAndOps,
resolves the output type through convertToType with the joined intersection
as replacement, and emits one line via formatInput; its complexTypes are
the flattened ones of the children followed by the ones generated at this node.
A FragmentSpread returns the generated fragment name with the fragment
flag, partial exactly when the spread carries a conditional directive.  An
InlineFragment with a type condition rebinds the parent to the conditioned
schema type and forces the inherited flag of the children to true; without one it
keeps the parent and passes false; either way it joins the
lines flat and returns the complexTypes accumulator of this call — which
is still empty, so the complex types of the children are dropped (source lines
261-266). -/
def getChildSelections (o : IOptions) (tm : ITypeMap) (schema : GQLSchema)
    (operation : OperationTypeNode) (selection : Selection) (indentation : String)
    (parent : Option GQLType) (isUndefined : Bool) : Except Err IChildren :=
  match selection with
  | Selection.field fname aliasName directives selectionSet =>
    match resolveField schema operation parent fname with
    | Except.error e => Except.error e
    | Except.ok fieldOpt =>
      let selectionName : String :=
        match aliasName with
        | some a => a
        | none => fname
      let isUndef : Bool := isUndefined || (isUndefinedFromDirective directives).fst
      match selectionSet with
      | some sels =>
        match fieldOpt with
        | none => Except.error (Err.typeErrorGetNamedTypeOfUndefined fname)
        | some fieldType =>
          let fieldNamed := getNamedType fieldType
          let newParent : Option GQLType :=
            if isCompositeType fieldNamed then some fieldNamed else none
          match walkSelections o tm schema operation sels (indentation ++ "  ") newParent false with
          | Except.error e => Except.error e
          | Except.ok selections =>
            let res := composeAndOps o fname indentation selections
            let childType : String := String.intercalate " & " res.fst
            let resolvedType : String := convertToType o tm fieldType false (some childType)
            Except.ok ⟨o.formatInput (indentation ++ selectionName) isUndef resolvedType,
              false, false, flattenComplexTypes selections ++ res.snd⟩
      | none =>
        match fieldOpt with
        | none => Except.error (Err.typeErrorConvertTypeOfUndefined fname)
        | some fieldType =>
          Except.ok ⟨o.formatInput (indentation ++ selectionName) isUndef
              (convertToType o tm fieldType false none),
            false, false, []⟩
  | Selection.fragmentSpread fname directives =>
    Except.ok ⟨o.generateFragmentName fname, true, (isUndefinedFromDirective directives).fst, []⟩
  | Selection.inlineFragment typeCondition directives sels =>
    let anon : Bool := typeCondition.isNone
    let parent2 : Option GQLType :=
      match typeCondition with
      | some tn => schemaGetType schema tn
      | none => parent
    match walkSelections o tm schema operation sels indentation parent2 (!anon) with
    | Except.error e => Except.error e
    | Except.ok selections =>
      Except.ok ⟨String.intercalate "\n" (selections.map (fun s => s.iface)),
        false, (isUndefinedFromDirective directives).fst, []⟩

/-- selections.map(sel => getChildSelections(...)) with identical extra
arguments: JS map evaluates left to right and an exception aborts it, so
the first error wins. -/
def walkSelections (o : IOptions) (tm : ITypeMap) (schema : GQLSchema)
    (operation : OperationTypeNode) (sels : List Selection) (indentation : String)
    (parent : Option GQLType) (isUndefined : Bool) : Except Err (List IChildren) :=
  match sels with
  | [] => Except.ok []
  | s :: rest =>
    match getChildSelections o tm schema operation s indentation parent isUndefined with
    | Except.error e => Except.error e
    | Except.ok c =>
      match walkSelections o tm schema operation rest indentation parent isUndefined with
      | Except.error e => Except.error e
      | Except.ok cs => Except.ok (c :: cs)

end

/-- getVariables (source lines 279-285): a declaration is optional exactly
when its syntactic type is not NonNull. -/
def getVariables (o : IOptions) (tm : ITypeMap) (schema : GQLSchema)
    (variableDefinitions : List VariableDefinitionNode) : List String :=
  variableDefinitions.map (fun v =>
    let optional : Bool :=
      match v.varType with
      | TypeNode.nonNullType _ => false
      | _ => true
    o.formatInput v.varName optional (convertVariable o tm schema v.varType false none))

/-- variablesToInterface (source lines 287-291). -/
def variablesToInterface (o : IOptions) (tm : ITypeMap) (schema : GQLSchema)
    (opName : String) (variableDefinitions : List VariableDefinitionNode) : String :=
  if variableDefinitions.isEmpty then ""
  else o.formatVariableInterface opName (getVariables o tm schema variableDefinitions)

/-- buildAdditionalTypes (source lines 293-303): flatten the top-level
complex types of the top-level children and render each as an exported type alias when
partial, else as an exported interface (a null name interpolates as the
text "null", as in JS). -/
def buildAdditionalTypes (children : List IChildren) : List String :=
  (flattenComplexTypes children).map (fun subtype =>
    if subtype.isPartialFlag then
      "export type " ++ jsNameText subtype.name ++ " = " ++ subtype.iface ++ ";"
    else
      "export interface " ++ jsNameText subtype.name ++ " " ++ subtype.iface)

/-- The per-definition assembly (source lines 305-338): an operation
definition builds its variables interface, walks its top-level selections
with no parent, joins their lines into the root interface and renders the
flattened auxiliary types; a fragment definition resolves its declared
type condition as the parent, splits fragment references (extensions) from
plain fields and assembles a fragment interface. -/
def convertDefinition (o : IOptions) (tm : ITypeMap) (schema : GQLSchema)
    (d : Definition) : Except Err OutputRecord :=
  let ifaceName : String := o.buildRootInterfaceName d o.generateQueryName o.generateFragmentName
  match d with
  | Definition.operationDefinition operation _ variableDefinitions selections =>
    let variableInterface : String := variablesToInterface o tm schema ifaceName variableDefinitions
    match walkSelections o tm schema operation selections "  " none false with
    | Except.error e => Except.error e
    | Except.ok ret =>
      let fields := ret.map (fun x => x.iface)
      let iface := o.formatInterface ifaceName fields
      Except.ok ⟨variableInterface, iface, buildAdditionalTypes ret⟩
  | Definition.fragmentDefinition _ typeCondition selections =>
    let foundType : Option GQLType := schemaGetType schema typeCondition
    match walkSelections o tm schema OperationTypeNode.query selections "  " foundType false with
    | Except.error e => Except.error e
    | Except.ok ret =>
      let extensions := (ret.filter (fun x => x.isFragment)).map (fun x => x.iface)
      let fields := (ret.filter (fun x => !x.isFragment)).map (fun x => x.iface)
      let iface := o.formatFragmentInterface ifaceName fields extensions
      Except.ok ⟨"", iface, buildAdditionalTypes ret⟩

/-- doIt (source lines 39, 305-339) after schema and query parsing and
after merging the type map and options (those merges happen over defaults
that live outside src/; the merged table and hooks are taken as inputs
here, exactly as the traversal consumes them): convert every document
definition in order; a thrown error aborts the whole conversion with no
partial output. -/
def doIt (o : IOptions) (tm : ITypeMap) (schema : GQLSchema) :
    List Definition → Except Err (List OutputRecord)
  | [] => Except.ok []
  | d :: rest =>
    match convertDefinition o tm schema d with
    | Except.error e => Except.error e
    | Except.ok r =>
      match doIt o tm schema rest with
      | Except.error e => Except.error e
      | Except.ok rs => Except.ok (r :: rs)

/-- Modelled from the spec: the default Formatting Strategy hooks (the
defaults module of from-query is not under src/; only its hook names and
observable behavior are given by the spec, sections 4.2 and 8).  The
nullable wrapper is a trailing " | null" appended by printType when the
type is not non-null; the optional marker is a "?" suffix on the field
name in formatInput; wrapPartialFn wraps in Partial<...>; wrapList wraps
in Array<...>; sub-type names are SelectionOn plus the field name plus the
counter when non-zero; fragment names are IFragment plus the fragment
name.  These concrete hooks are used only to instantiate theorems that
are otherwise proved for arbitrary hooks. -/
def defaultOptions : IOptions where
  buildRootInterfaceName := fun d gq gf =>
    match d with
    | Definition.operationDefinition _ _ _ _ => gq d
    | Definition.fragmentDefinition n _ _ => gf n
  formatFragmentInterface := fun n fields ext =>
    "export interface " ++ n ++ " extends " ++ String.intercalate ", " ext
      ++ " \x7b\n" ++ String.intercalate "\n" fields ++ "\n\x7d"
  formatInterface := fun n fields =>
    "export interface " ++ n ++ " \x7b\n" ++ String.intercalate "\n" fields ++ "\n\x7d"
  formatVariableInterface := fun n fields =>
    "export interface " ++ n ++ "Input \x7b\n" ++ String.intercalate "\n" fields ++ "\n\x7d"
  wrapList := fun inner => "Array<" ++ inner ++ ">"
  wrapPartialFn := fun body => "Partial<" ++ body ++ ">"
  generateSubTypeInterfaceName := fun fieldName counter =>
    some ("SelectionOn" ++ fieldName ++ (if counter = 0 then "" else toString counter))
  printType := fun typeText isNonNull => if isNonNull then typeText else typeText ++ " | null"
  formatInput := fun fieldName isOptional typeText =>
    fieldName ++ (if isOptional then "?" else "") ++ ": " ++ typeText ++ ";"
  generateFragmentName := fun n => "IFragment" ++ n
  generateQueryName := fun d =>
    match d with
    | Definition.operationDefinition _ (some n) _ _ => n
    | _ => "Anonymous"

/-- Modelled from the spec: the merged built-in type mapping table (the
defaults module is not under src/); scalar names map to output tokens and
the default token sits under __DEFAULT (spec 4.1).  Used only to
instantiate general theorems on concrete inputs. -/
def sampleTypeMap : ITypeMap :=
  [("String", "string"), ("Int", "number"), ("__DEFAULT", "any")]

/-- Unfolding equation: walking an empty selection list. -/
theorem walkSelections_nil (o : IOptions) (tm : ITypeMap) (schema : GQLSchema)
    (operation : OperationTypeNode) (ind : String) (p : Option GQLType) (u : Bool) :
    walkSelections o tm schema operation [] ind p u = Except.ok [] := by
  rw [walkSelections]

/-- Unfolding equation: walking a selection list whose head succeeds. -/
theorem walkSelections_cons_ok (o : IOptions) (tm : ITypeMap) (schema : GQLSchema)
    (operation : OperationTypeNode) (s : Selection) (rest : List Selection)
    (ind : String) (p : Option GQLType) (u : Bool) (c : IChildren) (cs : List IChildren)
    (h1 : getChildSelections o tm schema operation s ind p u = Except.ok c)
    (h2 : walkSelections o tm schema operation rest ind p u = Except.ok cs) :
    walkSelections o tm schema operation (s :: rest) ind p u = Except.ok (c :: cs) := by
  rw [walkSelections, h1, h2]

/-- Unfolding equation: a failing head selection aborts the list walk. -/
theorem walkSelections_cons_err (o : IOptions) (tm : ITypeMap) (schema : GQLSchema)
    (operation : OperationTypeNode) (s : Selection) (rest : List Selection)
    (ind : String) (p : Option GQLType) (u : Bool) (e : Err)
    (h1 : getChildSelections o tm schema operation s ind p u = Except.error e) :
    walkSelections o tm schema operation (s :: rest) ind p u = Except.error e := by
  rw [walkSelections, h1]

/-- Unfolding equation: a fragment spread selection. -/
theorem gcs_fragmentSpread (o : IOptions) (tm : ITypeMap) (schema : GQLSchema)
    (operation : OperationTypeNode) (n : String) (ds : List String)
    (ind : String) (p : Option GQLType) (u : Bool) :
    getChildSelections o tm schema operation (Selection.fragmentSpread n ds) ind p u
      = Except.ok ⟨o.generateFragmentName n, true, (isUndefinedFromDirective ds).fst, []⟩ := by
  rw [getChildSelections]

/-- Unfolding equation: an inline fragment with a type condition walks its
children against the conditioned schema type with the inherited flag
forced true, joins their lines flat and returns an empty complex-type
list. -/
theorem gcs_inlineFragment_cond (o : IOptions) (tm : ITypeMap) (schema : GQLSchema)
    (operation : OperationTypeNode) (tn : String) (ds : List String)
    (sels : List Selection) (ind : String) (p : Option GQLType) (u : Bool)
    (cs : List IChildren)
    (h : walkSelections o tm schema operation sels ind (schemaGetType schema tn) true
      = Except.ok cs) :
    getChildSelections o tm schema operation (Selection.inlineFragment (some tn) ds sels) ind p u
      = Except.ok ⟨String.intercalate "\n" (cs.map (fun s => s.iface)),
          false, (isUndefinedFromDirective ds).fst, []⟩ := by
  rw [getChildSelections]
  simp only [Option.isNone_some, Bool.not_false]
  rw [h]

/-- Unfolding equation: an anonymous inline fragment keeps the parent and
passes an inherited flag of false to its children. -/
theorem gcs_inlineFragment_anon (o : IOptions) (tm : ITypeMap) (schema : GQLSchema)
    (operation : OperationTypeNode) (ds : List String)
    (sels : List Selection) (ind : String) (p : Option GQLType) (u : Bool)
    (cs : List IChildren)
    (h : walkSelections o tm schema operation sels ind p false = Except.ok cs) :
    getChildSelections o tm schema operation (Selection.inlineFragment none ds sels) ind p u
      = Except.ok ⟨String.intercalate "\n" (cs.map (fun s => s.iface)),
          false, (isUndefinedFromDirective ds).fst, []⟩ := by
  rw [getChildSelections]
  simp only [Option.isNone_none, Bool.not_true]
  rw [h]

/-- Unfolding equation: a leaf field whose field definition resolved. -/
theorem gcs_field_leaf (o : IOptions) (tm : ITypeMap) (schema : GQLSchema)
    (operation : OperationTypeNode) (fname : String) (aliasName : Option String)
    (ds : List String) (ind : String) (p : Option GQLType) (u : Bool) (ft : GQLType)
    (h : resolveField schema operation p fname = Except.ok (some ft)) :
    getChildSelections o tm schema operation (Selection.field fname aliasName ds none) ind p u
      = Except.ok ⟨o.formatInput (ind ++ aliasName.getD fname)
            (u || (isUndefinedFromDirective ds).fst) (convertToType o tm ft false none),
          false, false, []⟩ := by
  rw [getChildSelections.eq_def]
  simp only [h]
  cases aliasName <;> rfl

/-- Unfolding equation: a field with a nested selection set whose field
definition resolved and whose walk of the children succeeded. -/
theorem gcs_field_nested (o : IOptions) (tm : ITypeMap) (schema : GQLSchema)
    (operation : OperationTypeNode) (fname : String) (aliasName : Option String)
    (ds : List String) (sels : List Selection) (ind : String) (p : Option GQLType)
    (u : Bool) (ft : GQLType) (cs : List IChildren)
    (h : resolveField schema operation p fname = Except.ok (some ft))
    (hw : walkSelections o tm schema operation sels (ind ++ "  ")
        (if isCompositeType (getNamedType ft) then some (getNamedType ft) else none) false
      = Except.ok cs) :
    getChildSelections o tm schema operation
        (Selection.field fname aliasName ds (some sels)) ind p u
      = Except.ok ⟨o.formatInput (ind ++ aliasName.getD fname)
            (u || (isUndefinedFromDirective ds).fst)
            (convertToType o tm ft false
              (some (String.intercalate " & " (composeAndOps o fname ind cs).fst))),
          false, false, flattenComplexTypes cs ++ (composeAndOps o fname ind cs).snd⟩ := by
  rw [getChildSelections.eq_def]
  simp only [h]
  rw [hw]
  cases aliasName <;> rfl

/-- Unfolding equation: a field with a nested selection set whose field is
absent from the resolved parent crashes at getNamedType, after the
console.log diagnostic. -/
theorem gcs_field_nested_missing (o : IOptions) (tm : ITypeMap) (schema : GQLSchema)
    (operation : OperationTypeNode) (fname : String) (aliasName : Option String)
    (ds : List String) (sels : List Selection) (ind : String) (p : Option GQLType)
    (u : Bool)
    (h : resolveField schema operation p fname = Except.ok none) :
    getChildSelections o tm schema operation
        (Selection.field fname aliasName ds (some sels)) ind p u
      = Except.error (Err.typeErrorGetNamedTypeOfUndefined fname) := by
  rw [getChildSelections.eq_def]
  simp only [h]

/-- Unfolding equation: a leaf field whose field is absent crashes at
convertToType, with no diagnostic printed. -/
theorem gcs_field_leaf_missing (o : IOptions) (tm : ITypeMap) (schema : GQLSchema)
    (operation : OperationTypeNode) (fname : String) (aliasName : Option String)
    (ds : List String) (ind : String) (p : Option GQLType) (u : Bool)
    (h : resolveField schema operation p fname = Except.ok none) :
    getChildSelections o tm schema operation (Selection.field fname aliasName ds none) ind p u
      = Except.error (Err.typeErrorConvertTypeOfUndefined fname) := by
  rw [getChildSelections.eq_def]
  simp only [h]

/-- Unfolding equation: a failing field resolution propagates its error. -/
theorem gcs_field_resolveErr (o : IOptions) (tm : ITypeMap) (schema : GQLSchema)
    (operation : OperationTypeNode) (fname : String) (aliasName : Option String)
    (ds : List String) (sset : Option (List Selection)) (ind : String)
    (p : Option GQLType) (u : Bool) (e : Err)
    (h : resolveField schema operation p fname = Except.error e) :
    getChildSelections o tm schema operation (Selection.field fname aliasName ds sset) ind p u
      = Except.error e := by
  rw [getChildSelections.eq_def]
  simp only [h]

/-- Unfolding equation: a failing children walk aborts the field. -/
theorem gcs_field_nested_walkErr (o : IOptions) (tm : ITypeMap) (schema : GQLSchema)
    (operation : OperationTypeNode) (fname : String) (aliasName : Option String)
    (ds : List String) (sels : List Selection) (ind : String) (p : Option GQLType)
    (u : Bool) (ft : GQLType) (e : Err)
    (h : resolveField schema operation p fname = Except.ok (some ft))
    (hw : walkSelections o tm schema operation sels (ind ++ "  ")
        (if isCompositeType (getNamedType ft) then some (getNamedType ft) else none) false
      = Except.error e) :
    getChildSelections o tm schema operation
        (Selection.field fname aliasName ds (some sels)) ind p u
      = Except.error e := by
  rw [getChildSelections.eq_def]
  simp only [h]
  rw [hw]

/-- The emitted line of any successfully walked Field selection is one
formatInput call whose optional flag is the inherited flag or-ed with the
conditional-directive check — independent of the schema type of the field. -/
theorem field_iface_shape (o : IOptions) (tm : ITypeMap) (schema : GQLSchema)
    (operation : OperationTypeNode) (fname : String) (aliasName : Option String)
    (ds : List String) (sset : Option (List Selection)) (ind : String)
    (p : Option GQLType) (u : Bool) (r : IChildren)
    (hok : getChildSelections o tm schema operation (Selection.field fname aliasName ds sset) ind p u
      = Except.ok r) :
    ∃ resolved, r.iface = o.formatInput (ind ++ aliasName.getD fname)
      (u || (isUndefinedFromDirective ds).fst) resolved := by
  cases hres : resolveField schema operation p fname with
  | error e =>
    rw [gcs_field_resolveErr o tm schema operation fname aliasName ds sset ind p u e hres] at hok
    cases hok
  | ok fieldOpt =>
    cases fieldOpt with
    | none =>
      cases sset with
      | none =>
        rw [gcs_field_leaf_missing o tm schema operation fname aliasName ds ind p u hres] at hok
        cases hok
      | some sels =>
        rw [gcs_field_nested_missing o tm schema operation fname aliasName ds sels ind p u hres] at hok
        cases hok
    | some ft =>
      cases sset with
      | none =>
        rw [gcs_field_leaf o tm schema operation fname aliasName ds ind p u ft hres] at hok
        cases hok
        exact ⟨_, rfl⟩
      | some sels =>
        cases hw : walkSelections o tm schema operation sels (ind ++ "  ")
            (if isCompositeType (getNamedType ft) then some (getNamedType ft) else none) false with
        | error e =>
          rw [gcs_field_nested_walkErr o tm schema operation fname aliasName ds sels ind p u ft e
            hres hw] at hok
          cases hok
        | ok cs =>
          rw [gcs_field_nested o tm schema operation fname aliasName ds sels ind p u ft cs
            hres hw] at hok
          cases hok
          exact ⟨_, rfl⟩

/-- A failing operation-definition walk aborts convertDefinition. -/
theorem convertDefinition_opErr (o : IOptions) (tm : ITypeMap) (schema : GQLSchema)
    (operation : OperationTypeNode) (nm : Option String)
    (vars : List VariableDefinitionNode) (sels : List Selection) (e : Err)
    (h : walkSelections o tm schema operation sels "  " none false = Except.error e) :
    convertDefinition o tm schema (Definition.operationDefinition operation nm vars sels)
      = Except.error e := by
  simp only [convertDefinition]
  rw [h]

/-- A definition that throws aborts the whole document conversion. -/
theorem doIt_error_of_mem (o : IOptions) (tm : ITypeMap) (schema : GQLSchema)
    (defs : List Definition) (d : Definition) (e : Err)
    (hmem : d ∈ defs) (hd : convertDefinition o tm schema d = Except.error e) :
    ∃ e2, doIt o tm schema defs = Except.error e2 := by
  induction defs with
  | nil => cases hmem
  | cons hd2 tl ih =>
    rcases List.mem_cons.mp hmem with h | h
    · subst h
      exact ⟨e, by simp only [doIt]; rw [hd]⟩
    · cases hcd : convertDefinition o tm schema hd2 with
      | error e3 => exact ⟨e3, by simp only [doIt]; rw [hcd]⟩
      | ok r =>
        rcases ih h with ⟨e2, htl⟩
        exact ⟨e2, by simp only [doIt]; rw [hcd, htl]⟩

/-- findSome? skips a prefix on which the function yields none. -/
theorem findSome?_append_none {α β : Type} (g : α → Option β) (pre l : List α)
    (h : ∀ x ∈ pre, g x = none) :
    List.findSome? g (pre ++ l) = List.findSome? g l := by
  induction pre with
  | nil => rfl
  | cons a rest ih =>
    have ha : g a = none := h a (List.mem_cons_self a rest)
    simp only [List.cons_append, List.findSome?_cons, ha]
    exact ih (fun x hx => h x (List.mem_cons_of_mem a hx))

/-- Sample schema used to instantiate the general theorems: Query declares
user (an object with a non-null id and a nullable name), a plain scalar
name, and pet (a union of Dog and Cat, where only Cat declares meow). -/
def sampleUserType : GQLType :=
  GQLType.object "User"
    [("id", GQLType.nonNull (GQLType.scalar "ID")), ("name", GQLType.scalar "String")]

def sampleDogType : GQLType := GQLType.object "Dog" [("bark", GQLType.scalar "String")]

def sampleCatType : GQLType := GQLType.object "Cat" [("meow", GQLType.scalar "String")]

def samplePetType : GQLType := GQLType.union "Pet" [sampleDogType, sampleCatType]

def sampleQueryType : GQLType :=
  GQLType.object "Query"
    [("user", sampleUserType), ("name", GQLType.scalar "String"), ("pet", samplePetType)]

def sampleSchema : GQLSchema :=
  ⟨some sampleQueryType, none, none,
   [("Query", sampleQueryType), ("User", sampleUserType), ("Dog", sampleDogType),
    ("Cat", sampleCatType), ("Pet", samplePetType)]⟩

/-- Document with one operation whose single top-level selection is an
inline fragment conditioned on Query, selecting user with a nested id. -/
def inlineFragmentDoc : Definition :=
  Definition.operationDefinition OperationTypeNode.query (some "Q") []
    [Selection.inlineFragment (some "Query") []
      [Selection.field "user" none [] (some [Selection.field "id" none [] none])]]

/-- Document with one operation whose single top-level selection is an
anonymous inline fragment carrying an include directive. -/
def topLevelDirDoc : Definition :=
  Definition.operationDefinition OperationTypeNode.query (some "Q") []
    [Selection.inlineFragment none ["include"] [Selection.field "name" none [] none]]

/-- The same document without the include directive. -/
def topLevelNoDirDoc : Definition :=
  Definition.operationDefinition OperationTypeNode.query (some "Q") []
    [Selection.inlineFragment none [] [Selection.field "name" none [] none]]

/-- The returned boolean of the directive check is exactly the presence of
a recognized conditional directive. -/
theorem dirFlag_iff (ds : List String) :
    (isUndefinedFromDirective ds).fst = true ↔ "include" ∈ ds ∨ "skip" ∈ ds := by
  cases ds with
  | nil => simp [isUndefinedFromDirective]
  | cons a l =>
    simp only [isUndefinedFromDirective, List.isEmpty_cons, Bool.false_eq_true, if_false,
      UndefinedDirectives, List.any_eq_true]
    constructor
    · rintro ⟨d, hd, h⟩
      simp only [List.contains_cons, List.contains_nil, Bool.or_false, Bool.or_eq_true,
        beq_iff_eq] at h
      rcases h with h | h <;> subst h
      · exact Or.inl hd
      · exact Or.inr hd
    · rintro (h | h) <;> exact ⟨_, h, by simp⟩

/-- The diagnostic list of the directive check consists exactly of the
unrecognized directive names. -/
theorem dirSnd_mem (ds : List String) (d0 : String) :
    d0 ∈ (isUndefinedFromDirective ds).snd ↔ d0 ∈ ds ∧ d0 ≠ "include" ∧ d0 ≠ "skip" := by
  cases ds with
  | nil => simp [isUndefinedFromDirective]
  | cons a l =>
    simp only [isUndefinedFromDirective, List.isEmpty_cons, Bool.false_eq_true, if_false,
      List.mem_filter, UndefinedDirectives]
    constructor
    · rintro ⟨hmem, h⟩
      simp only [List.contains_cons, List.contains_nil, Bool.or_false, Bool.not_eq_true',
        Bool.or_eq_false_iff, beq_eq_false_iff_ne, ne_eq] at h
      exact ⟨hmem, h.1, h.2⟩
    · rintro ⟨hmem, h1, h2⟩
      refine ⟨hmem, ?_⟩
      simp [h1, h2]

/-- A directive list containing no recognized conditional directive yields
a false flag and is reported wholesale as the diagnostic list. -/
theorem dirFlag_unknown (ds : List String)
    (hall : ∀ d ∈ ds, d ≠ "include" ∧ d ≠ "skip") :
    (isUndefinedFromDirective ds).fst = false ∧ (isUndefinedFromDirective ds).snd = ds := by
  constructor
  · rw [Bool.eq_false_iff]
    intro h
    rcases (dirFlag_iff ds).mp h with hmem | hmem
    · exact (hall _ hmem).1 rfl
    · exact (hall _ hmem).2 rfl
  · cases ds with
    | nil => simp [isUndefinedFromDirective]
    | cons a l =>
      simp only [isUndefinedFromDirective, List.isEmpty_cons, Bool.false_eq_true, if_false]
      rw [List.filter_eq_self]
      intro x hx
      rcases hall x hx with ⟨h1, h2⟩
      simp [UndefinedDirectives, h1, h2]

/-- Claim C4: a fragment spread returns its generated fragment name with
the fragment flag set and a partial flag that is exactly the presence of a
conditional directive on the spread; in the composed intersection the
fragment operands form the final segment, each wrapped by wrapPartialFn
exactly when its partial flag is set and appearing unwrapped otherwise. -/
theorem claim4_fragment_spread_optionality (o : IOptions) (tm : ITypeMap) (schema : GQLSchema)
    (operation : OperationTypeNode) (n : String) (ds : List String) (ind : String)
    (p : Option GQLType) (u : Bool) (fieldName ind2 : String) (children : List IChildren) :
    getChildSelections o tm schema operation (Selection.fragmentSpread n ds) ind p u
      = Except.ok ⟨o.generateFragmentName n, true, (isUndefinedFromDirective ds).fst, []⟩
    ∧ ((isUndefinedFromDirective ds).fst = true ↔ "include" ∈ ds ∨ "skip" ∈ ds)
    ∧ ∃ pre, (composeAndOps o fieldName ind2 children).fst
        = pre ++ (children.filter (fun s => s.isFragment)).map
            (fun c => if c.isPartialFlag then o.wrapPartialFn c.iface else c.iface) := by
  refine ⟨gcs_fragmentSpread o tm schema operation n ds ind p u, dirFlag_iff ds, ?_⟩
  simp only [composeAndOps]
  exact ⟨_, rfl⟩

/-- Claim C6: a union parent resolves a field through the first member, in
declaration order, that declares it; a non-union composite parent through
its own field map; and an absent parent against the root type of the
operation kind. -/
theorem claim6_field_resolution (schema : GQLSchema) (operation : OperationTypeNode)
    (un : String) (members pre post : List GQLType) (m : GQLType) (f : String) (ft : GQLType)
    (pn : String) (flds : List (String × GQLType)) (root : GQLType)
    (h1 : members = pre ++ m :: post)
    (h2 : ∀ x ∈ pre, lookupField x f = none)
    (h3 : lookupField m f = some ft)
    (h4 : getOperationFields schema operation = some root) :
    resolveField schema operation (some (GQLType.union un members)) f = Except.ok (some ft)
    ∧ resolveField schema operation (some (GQLType.object pn flds)) f
        = Except.ok (lookupField (GQLType.object pn flds) f)
    ∧ resolveField schema operation none f = Except.ok (lookupField root f) := by
  subst h1
  refine ⟨?_, ?_, ?_⟩
  · simp only [resolveField, isCompositeType, if_true]
    rw [findSome?_append_none _ pre _ h2]
    simp [List.findSome?_cons, h3]
  · simp [resolveField, isCompositeType]
  · simp [resolveField, h4]

/-- Claim C6 witnessed at a concrete input: meow is declared by Cat, the
second member of the Pet union, and not by Dog, its first member. -/
theorem claim6_witness :
    resolveField sampleSchema OperationTypeNode.query
        (some (GQLType.union "Pet" [sampleDogType, sampleCatType])) "meow"
      = Except.ok (some (GQLType.scalar "String"))
    ∧ resolveField sampleSchema OperationTypeNode.query
        (some (GQLType.object "User"
          [("id", GQLType.nonNull (GQLType.scalar "ID")), ("name", GQLType.scalar "String")]))
        "meow"
      = Except.ok (lookupField (GQLType.object "User"
          [("id", GQLType.nonNull (GQLType.scalar "ID")), ("name", GQLType.scalar "String")])
          "meow")
    ∧ resolveField sampleSchema OperationTypeNode.query none "meow"
      = Except.ok (lookupField sampleQueryType "meow") :=
  claim6_field_resolution sampleSchema OperationTypeNode.query "Pet"
    [sampleDogType, sampleCatType] [sampleDogType] [] sampleCatType "meow"
    (GQLType.scalar "String") "User"
    [("id", GQLType.nonNull (GQLType.scalar "ID")), ("name", GQLType.scalar "String")]
    sampleQueryType rfl
    (by
      intro x hx
      rw [List.mem_singleton] at hx
      subst hx
      rfl)
    rfl rfl

/-- Claim C1: schema non-null wrapping only steers the emitted type text —
the resolver peels NonNull recursing with the non-null flag set, and under
the printType of the spec the nullable wrapper is a suffix present exactly on
nullable types — while the optional flag handed to formatInput for a field
line is the inherited flag or-ed with the conditional-directive check,
with no dependence on the schema type of the field. -/
theorem claim1_nullability_vs_optionality (o : IOptions) (tm : ITypeMap) (schema : GQLSchema)
    (operation : OperationTypeNode) (fname : String) (aliasName : Option String)
    (ds : List String) (sset : Option (List Selection)) (ind : String)
    (p : Option GQLType) (u : Bool) (r : IChildren) (t t2 : GQLType) (b : Bool)
    (repl repl2 : Option String)
    (hok : getChildSelections o tm schema operation (Selection.field fname aliasName ds sset)
      ind p u = Except.ok r)
    (hPT : o.printType = fun s isNonNull => if isNonNull then s else s ++ " | null")
    (hL : isList t2 = false) (hNN : isNonNullable t2 = false) :
    convertToType o tm (GQLType.nonNull t) b repl = convertToType o tm t true repl
    ∧ (∃ resolved, r.iface = o.formatInput (ind ++ aliasName.getD fname)
        (u || (isUndefinedFromDirective ds).fst) resolved)
    ∧ convertToType o tm t2 false repl2 = convertToType o tm t2 true repl2 ++ " | null" := by
  refine ⟨rfl,
    field_iface_shape o tm schema operation fname aliasName ds sset ind p u r hok, ?_⟩
  cases t2 <;>
    simp_all [convertToType, handleEnum, handleRegularType, isList, isNonNullable]

/-- Claim C1 witnessed at a concrete input: the nullable field name of
User selected without directives. -/
theorem claim1_witness :
    convertToType defaultOptions sampleTypeMap
        (GQLType.nonNull (GQLType.scalar "X")) false none
      = convertToType defaultOptions sampleTypeMap (GQLType.scalar "X") true none
    ∧ (∃ resolved, (⟨"  name: string | null;", false, false, []⟩ : IChildren).iface
        = defaultOptions.formatInput ("  " ++ Option.getD none "name")
          (false || (isUndefinedFromDirective []).fst) resolved)
    ∧ convertToType defaultOptions sampleTypeMap (GQLType.scalar "String") false none
      = convertToType defaultOptions sampleTypeMap (GQLType.scalar "String") true none
        ++ " | null" :=
  claim1_nullability_vs_optionality defaultOptions sampleTypeMap sampleSchema
    OperationTypeNode.query "name" none [] none "  " (some sampleUserType) false
    ⟨"  name: string | null;", false, false, []⟩ (GQLType.scalar "X") (GQLType.scalar "String")
    false none none
    (by
      rw [gcs_field_leaf defaultOptions sampleTypeMap sampleSchema OperationTypeNode.query
        "name" none [] "  " (some sampleUserType) false (GQLType.scalar "String") rfl]
      rfl)
    rfl rfl rfl

/-- Claim C3: an inline fragment with an explicit type condition rebinds
the parent to the conditioned schema type and walks every child with the
inherited flag forced true — so a field child is emitted with its optional
flag true even with no directive anywhere —, while an anonymous inline
fragment keeps the current parent and passes an inherited flag of false. -/
theorem claim3_inline_fragment_narrowing (o : IOptions) (tm : ITypeMap) (schema : GQLSchema)
    (operation : OperationTypeNode) (tn : String) (ds : List String) (sels : List Selection)
    (ind : String) (p : Option GQLType) (u : Bool) (cs : List IChildren)
    (ds2 : List String) (sels2 : List Selection) (ind2 : String) (p2 : Option GQLType)
    (u2 : Bool) (cs2 : List IChildren)
    (fname : String) (a : Option String) (fds : List String) (fss : Option (List Selection))
    (find : String) (fp : Option GQLType) (r : IChildren)
    (h1 : walkSelections o tm schema operation sels ind (schemaGetType schema tn) true
      = Except.ok cs)
    (h2 : walkSelections o tm schema operation sels2 ind2 p2 false = Except.ok cs2)
    (h3 : getChildSelections o tm schema operation (Selection.field fname a fds fss) find fp true
      = Except.ok r) :
    getChildSelections o tm schema operation (Selection.inlineFragment (some tn) ds sels) ind p u
      = Except.ok ⟨String.intercalate "\n" (cs.map (fun s => s.iface)), false,
          (isUndefinedFromDirective ds).fst, []⟩
    ∧ getChildSelections o tm schema operation (Selection.inlineFragment none ds2 sels2) ind2 p2 u2
      = Except.ok ⟨String.intercalate "\n" (cs2.map (fun s => s.iface)), false,
          (isUndefinedFromDirective ds2).fst, []⟩
    ∧ ∃ resolved, r.iface = o.formatInput (find ++ a.getD fname) true resolved := by
  refine ⟨gcs_inlineFragment_cond o tm schema operation tn ds sels ind p u cs h1,
    gcs_inlineFragment_anon o tm schema operation ds2 sels2 ind2 p2 u2 cs2 h2, ?_⟩
  rcases field_iface_shape o tm schema operation fname a fds fss find fp true r h3 with ⟨res, hres⟩
  exact ⟨res, by simpa using hres⟩

/-- Claim C3 witnessed at concrete inputs: a fragment conditioned on User
forces its name child optional; an anonymous fragment does not. -/
theorem claim3_witness :
    getChildSelections defaultOptions sampleTypeMap sampleSchema OperationTypeNode.query
        (Selection.inlineFragment (some "User") [] [Selection.field "name" none [] none])
        "  " (some sampleUserType) false
      = Except.ok ⟨String.intercalate "\n"
            ([(⟨"  name?: string | null;", false, false, []⟩ : IChildren)].map
              (fun s => s.iface)),
          false, (isUndefinedFromDirective []).fst, []⟩
    ∧ getChildSelections defaultOptions sampleTypeMap sampleSchema OperationTypeNode.query
        (Selection.inlineFragment none [] [Selection.field "name" none [] none])
        "  " (some sampleUserType) false
      = Except.ok ⟨String.intercalate "\n"
            ([(⟨"  name: string | null;", false, false, []⟩ : IChildren)].map
              (fun s => s.iface)),
          false, (isUndefinedFromDirective []).fst, []⟩
    ∧ ∃ resolved, (⟨"  name?: string | null;", false, false, []⟩ : IChildren).iface
        = defaultOptions.formatInput ("  " ++ Option.getD none "name") true resolved :=
  claim3_inline_fragment_narrowing defaultOptions sampleTypeMap sampleSchema
    OperationTypeNode.query "User" [] [Selection.field "name" none [] none]
    "  " (some sampleUserType) false [⟨"  name?: string | null;", false, false, []⟩]
    [] [Selection.field "name" none [] none] "  " (some sampleUserType) false
    [⟨"  name: string | null;", false, false, []⟩]
    "name" none [] none "  " (some sampleUserType)
    ⟨"  name?: string | null;", false, false, []⟩
    (walkSelections_cons_ok defaultOptions sampleTypeMap sampleSchema OperationTypeNode.query
      (Selection.field "name" none [] none) [] "  " (schemaGetType sampleSchema "User") true
      ⟨"  name?: string | null;", false, false, []⟩ []
      (by
        rw [gcs_field_leaf defaultOptions sampleTypeMap sampleSchema OperationTypeNode.query
          "name" none [] "  " (schemaGetType sampleSchema "User") true
          (GQLType.scalar "String") rfl]
        rfl)
      (walkSelections_nil defaultOptions sampleTypeMap sampleSchema OperationTypeNode.query
        "  " (schemaGetType sampleSchema "User") true))
    (walkSelections_cons_ok defaultOptions sampleTypeMap sampleSchema OperationTypeNode.query
      (Selection.field "name" none [] none) [] "  " (some sampleUserType) false
      ⟨"  name: string | null;", false, false, []⟩ []
      (by
        rw [gcs_field_leaf defaultOptions sampleTypeMap sampleSchema OperationTypeNode.query
          "name" none [] "  " (some sampleUserType) false (GQLType.scalar "String") rfl]
        rfl)
      (walkSelections_nil defaultOptions sampleTypeMap sampleSchema OperationTypeNode.query
        "  " (some sampleUserType) false))
    (by
      rw [gcs_field_leaf defaultOptions sampleTypeMap sampleSchema OperationTypeNode.query
        "name" none [] "  " (some sampleUserType) true (GQLType.scalar "String") rfl]
      rfl)

/-- Claim C8 counterexample: a leaf selection (no nested selection set)
naming a field absent from its resolved parent crashes dereferencing the
missing field inside convertToType without any diagnostic being logged
first — the reference behavior does not log-then-dereference on this
input, contradicting the description the claim gives of the unresolved-field
path. -/
theorem claim8_counterexample_leaf_no_diagnostic :
    getChildSelections defaultOptions sampleTypeMap sampleSchema OperationTypeNode.query
        (Selection.field "nofield" none [] none) "  " (some sampleUserType) false
      = Except.error (Err.typeErrorConvertTypeOfUndefined "nofield") :=
  gcs_field_leaf_missing defaultOptions sampleTypeMap sampleSchema OperationTypeNode.query
    "nofield" none [] "  " (some sampleUserType) false rfl

/-- Claim C8 amended: a selection naming a field absent from its resolved
parent is fatal in both shapes, never a structured error: with a nested
selection set the walker prints the diagnostic and then crashes
dereferencing the missing field in getNamedType; without one it crashes
dereferencing it in convertToType, with no diagnostic printed. -/
theorem claim8_unresolved_field_crash_paths (o : IOptions) (tm : ITypeMap) (schema : GQLSchema)
    (operation : OperationTypeNode) (fname : String) (a : Option String) (ds : List String)
    (sels : List Selection) (ind : String) (p : Option GQLType) (u : Bool)
    (h : resolveField schema operation p fname = Except.ok none) :
    getChildSelections o tm schema operation (Selection.field fname a ds (some sels)) ind p u
      = Except.error (Err.typeErrorGetNamedTypeOfUndefined fname)
    ∧ getChildSelections o tm schema operation (Selection.field fname a ds none) ind p u
      = Except.error (Err.typeErrorConvertTypeOfUndefined fname) :=
  ⟨gcs_field_nested_missing o tm schema operation fname a ds sels ind p u h,
   gcs_field_leaf_missing o tm schema operation fname a ds ind p u h⟩

/-- Claim C8 amended, witnessed at a concrete input: the field other is
absent from User. -/
theorem claim8_witness :
    getChildSelections defaultOptions sampleTypeMap sampleSchema OperationTypeNode.query
        (Selection.field "other" none [] (some [Selection.field "x" none [] none]))
        "  " (some sampleUserType) false
      = Except.error (Err.typeErrorGetNamedTypeOfUndefined "other")
    ∧ getChildSelections defaultOptions sampleTypeMap sampleSchema OperationTypeNode.query
        (Selection.field "other" none [] none) "  " (some sampleUserType) false
      = Except.error (Err.typeErrorConvertTypeOfUndefined "other") :=
  claim8_unresolved_field_crash_paths defaultOptions sampleTypeMap sampleSchema
    OperationTypeNode.query "other" none [] [Selection.field "x" none [] none]
    "  " (some sampleUserType) false rfl

/-- Claim C9: the directive check returns true exactly when a recognized
conditional directive (skip or include) is present; the diagnostic list is
exactly the unrecognized names; and a field carrying only unrecognized
directives is emitted non-optional with the walk succeeding (no abort). -/
theorem claim9_unknown_directives (o : IOptions) (tm : ITypeMap) (schema : GQLSchema)
    (operation : OperationTypeNode) (pn : String) (flds : List (String × GQLType))
    (f : String) (ds ds2 : List String) (d0 : String) (ind : String) (ft : GQLType)
    (hall : ∀ d ∈ ds, d ≠ "include" ∧ d ≠ "skip")
    (hf : lookupField (GQLType.object pn flds) f = some ft) :
    ((isUndefinedFromDirective ds2).fst = true ↔ "include" ∈ ds2 ∨ "skip" ∈ ds2)
    ∧ (d0 ∈ (isUndefinedFromDirective ds2).snd ↔ d0 ∈ ds2 ∧ d0 ≠ "include" ∧ d0 ≠ "skip")
    ∧ (isUndefinedFromDirective ds).fst = false
    ∧ (isUndefinedFromDirective ds).snd = ds
    ∧ getChildSelections o tm schema operation (Selection.field f none ds none) ind
        (some (GQLType.object pn flds)) false
      = Except.ok ⟨o.formatInput (ind ++ f) false (convertToType o tm ft false none),
          false, false, []⟩ := by
  have hres : resolveField schema operation (some (GQLType.object pn flds)) f
      = Except.ok (some ft) := by
    simp [resolveField, isCompositeType, hf]
  have h5 := gcs_field_leaf o tm schema operation f none ds ind
    (some (GQLType.object pn flds)) false ft hres
  rw [(dirFlag_unknown ds hall).1] at h5
  refine ⟨dirFlag_iff ds2, dirSnd_mem ds2 d0, (dirFlag_unknown ds hall).1,
    (dirFlag_unknown ds hall).2, ?_⟩
  simpa using h5

/-- Claim C9 witnessed at a concrete input: the field name of User carries
only the unrecognized directive deprecated. -/
theorem claim9_witness :
    (((isUndefinedFromDirective ["deprecated"]).fst = true)
      ↔ "include" ∈ ["deprecated"] ∨ "skip" ∈ ["deprecated"])
    ∧ ("deprecated" ∈ (isUndefinedFromDirective ["deprecated"]).snd
      ↔ "deprecated" ∈ ["deprecated"] ∧ "deprecated" ≠ "include" ∧ "deprecated" ≠ "skip")
    ∧ (isUndefinedFromDirective ["deprecated"]).fst = false
    ∧ (isUndefinedFromDirective ["deprecated"]).snd = ["deprecated"]
    ∧ getChildSelections defaultOptions sampleTypeMap sampleSchema OperationTypeNode.query
        (Selection.field "name" none ["deprecated"] none) "  "
        (some (GQLType.object "User"
          [("id", GQLType.nonNull (GQLType.scalar "ID")), ("name", GQLType.scalar "String")]))
        false
      = Except.ok ⟨defaultOptions.formatInput ("  " ++ "name") false
            (convertToType defaultOptions sampleTypeMap (GQLType.scalar "String") false none),
          false, false, []⟩ :=
  claim9_unknown_directives defaultOptions sampleTypeMap sampleSchema OperationTypeNode.query
    "User" [("id", GQLType.nonNull (GQLType.scalar "ID")), ("name", GQLType.scalar "String")]
    "name" ["deprecated"] ["deprecated"] "deprecated" "  " (GQLType.scalar "String")
    (by intro d hd; rw [List.mem_singleton] at hd; subst hd; exact ⟨by decide, by decide⟩)
    rfl

/-- Claim C10 counterexample: with the type name T mapped to number in the
table and a nested-selection replacement supplied, handleRegularType (via
convertToType, as at the field call site) emits the replacement body, not
the mapped token — the table entry for the own name of the type is ignored when
a replacement is present, because the lookup key is the replacement
itself. -/
theorem claim10_counterexample_map_entry_ignored :
    convertToType defaultOptions (("T", "number") :: sampleTypeMap)
        (GQLType.object "T" []) false (some "SelectionOnx")
      = "SelectionOnx | null"
    ∧ tmLookup (("T", "number") :: sampleTypeMap) "T" = some "number"
    ∧ ("SelectionOnx | null" ≠ "number | null"
        ∧ "SelectionOnx | null" ≠ ("number" : String)) := by
  refine ⟨rfl, rfl, by decide, by decide⟩

/-- Claim C10 amended: the lookup key of handleRegularType is the
replacement itself whenever the replacement is truthy (non-null and
non-empty) — the own name of the type is then not consulted at all — so the
body is emitted verbatim unless the body string itself is a table key;
with no replacement, the name is looked up and a missing or empty entry
falls back to the __DEFAULT token. -/
theorem claim10_replacement_is_lookup_key (o : IOptions) (tm tm2 : ITypeMap)
    (typeValue : String) (isNonNull : Bool) (r v : String)
    (hr : r.isEmpty = false) (hmiss : tmLookup tm r = none)
    (hv : tmLookup tm typeValue = some v) (hvne : v.isEmpty = false)
    (h2 : tmLookup tm2 typeValue = none) :
    handleRegularType o tm typeValue isNonNull (some r) = o.printType r isNonNull
    ∧ handleRegularType o tm typeValue isNonNull none = o.printType v isNonNull
    ∧ handleRegularType o tm2 typeValue isNonNull none
        = o.printType (tmDefault tm2) isNonNull := by
  refine ⟨?_, ?_, ?_⟩
  · simp [handleRegularType, jsOr, jsTruthy, hr, hmiss]
  · simp [handleRegularType, jsOr, jsTruthy, hv, hvne]
  · simp [handleRegularType, jsOr, jsTruthy, h2]

/-- Claim C10 amended, witnessed at a concrete input. -/
theorem claim10_witness :
    handleRegularType defaultOptions (("T", "number") :: sampleTypeMap) "T" false
        (some "SelectionOnx")
      = defaultOptions.printType "SelectionOnx" false
    ∧ handleRegularType defaultOptions (("T", "number") :: sampleTypeMap) "T" false none
      = defaultOptions.printType "number" false
    ∧ handleRegularType defaultOptions sampleTypeMap "T" false none
      = defaultOptions.printType (tmDefault sampleTypeMap) false :=
  claim10_replacement_is_lookup_key defaultOptions (("T", "number") :: sampleTypeMap)
    sampleTypeMap "T" false "SelectionOnx" "number" (by decide) rfl rfl (by decide) rfl
/-- Claim C2, evaluated at the failing input: under an inline fragment the
nested selection on user generates an auxiliary type (second conjunct: the
own walk of the field carries a non-empty complexTypes list, and its emitted
line references the generated name SelectionOnuser), yet the
document-level conversion renders an empty auxiliary-type list while the
root interface still references SelectionOnuser — the InlineFragment
branch returns its complexTypes accumulator before the complex
types are pushed into it, so the generated auxiliary type is dropped. -/
theorem claim2_inline_fragment_drops_auxiliary_types :
    doIt defaultOptions sampleTypeMap sampleSchema [inlineFragmentDoc]
      = Except.ok [⟨"", "export interface Q \x7b\n  user?: SelectionOnuser | null;\n\x7d", []⟩]
    ∧ getChildSelections defaultOptions sampleTypeMap sampleSchema OperationTypeNode.query
        (Selection.field "user" none [] (some [Selection.field "id" none [] none]))
        "  " (some sampleQueryType) true
      = Except.ok ⟨"  user?: SelectionOnuser | null;", false, false,
          [⟨"\x7b\n    id: any;\n  \x7d", false, some "SelectionOnuser"⟩]⟩ := by
  have s1 : getChildSelections defaultOptions sampleTypeMap sampleSchema OperationTypeNode.query
      (Selection.field "id" none [] none) ("  " ++ "  ") (some sampleUserType) false
      = Except.ok ⟨"    id: any;", false, false, []⟩ := by
    rw [gcs_field_leaf defaultOptions sampleTypeMap sampleSchema OperationTypeNode.query "id"
      none [] ("  " ++ "  ") (some sampleUserType) false
      (GQLType.nonNull (GQLType.scalar "ID")) rfl]
    rfl
  have s2 : walkSelections defaultOptions sampleTypeMap sampleSchema OperationTypeNode.query
      [Selection.field "id" none [] none] ("  " ++ "  ") (some sampleUserType) false
      = Except.ok [⟨"    id: any;", false, false, []⟩] :=
    walkSelections_cons_ok defaultOptions sampleTypeMap sampleSchema OperationTypeNode.query
      (Selection.field "id" none [] none) [] ("  " ++ "  ") (some sampleUserType) false
      ⟨"    id: any;", false, false, []⟩ [] s1
      (walkSelections_nil defaultOptions sampleTypeMap sampleSchema OperationTypeNode.query
        ("  " ++ "  ") (some sampleUserType) false)
  have s3 : getChildSelections defaultOptions sampleTypeMap sampleSchema OperationTypeNode.query
      (Selection.field "user" none [] (some [Selection.field "id" none [] none]))
      "  " (some sampleQueryType) true
      = Except.ok ⟨"  user?: SelectionOnuser | null;", false, false,
          [⟨"\x7b\n    id: any;\n  \x7d", false, some "SelectionOnuser"⟩]⟩ := by
    rw [gcs_field_nested defaultOptions sampleTypeMap sampleSchema OperationTypeNode.query
      "user" none [] [Selection.field "id" none [] none] "  " (some sampleQueryType) true
      sampleUserType [⟨"    id: any;", false, false, []⟩] rfl s2]
    rfl
  refine ⟨?_, s3⟩
  have s4 : walkSelections defaultOptions sampleTypeMap sampleSchema OperationTypeNode.query
      [Selection.field "user" none [] (some [Selection.field "id" none [] none])]
      "  " (schemaGetType sampleSchema "Query") true
      = Except.ok [⟨"  user?: SelectionOnuser | null;", false, false,
          [⟨"\x7b\n    id: any;\n  \x7d", false, some "SelectionOnuser"⟩]⟩] :=
    walkSelections_cons_ok defaultOptions sampleTypeMap sampleSchema OperationTypeNode.query
      (Selection.field "user" none [] (some [Selection.field "id" none [] none])) []
      "  " (schemaGetType sampleSchema "Query") true
      ⟨"  user?: SelectionOnuser | null;", false, false,
        [⟨"\x7b\n    id: any;\n  \x7d", false, some "SelectionOnuser"⟩]⟩ [] s3
      (walkSelections_nil defaultOptions sampleTypeMap sampleSchema OperationTypeNode.query
        "  " (schemaGetType sampleSchema "Query") true)
  have s5 : getChildSelections defaultOptions sampleTypeMap sampleSchema OperationTypeNode.query
      (Selection.inlineFragment (some "Query") []
        [Selection.field "user" none [] (some [Selection.field "id" none [] none])])
      "  " none false
      = Except.ok ⟨"  user?: SelectionOnuser | null;", false, false, []⟩ := by
    rw [gcs_inlineFragment_cond defaultOptions sampleTypeMap sampleSchema OperationTypeNode.query
      "Query" [] [Selection.field "user" none [] (some [Selection.field "id" none [] none])]
      "  " none false
      [⟨"  user?: SelectionOnuser | null;", false, false,
        [⟨"\x7b\n    id: any;\n  \x7d", false, some "SelectionOnuser"⟩]⟩] s4]
    rfl
  have s6 : walkSelections defaultOptions sampleTypeMap sampleSchema OperationTypeNode.query
      [Selection.inlineFragment (some "Query") []
        [Selection.field "user" none [] (some [Selection.field "id" none [] none])]]
      "  " none false
      = Except.ok [⟨"  user?: SelectionOnuser | null;", false, false, []⟩] :=
    walkSelections_cons_ok defaultOptions sampleTypeMap sampleSchema OperationTypeNode.query
      (Selection.inlineFragment (some "Query") []
        [Selection.field "user" none [] (some [Selection.field "id" none [] none])]) []
      "  " none false ⟨"  user?: SelectionOnuser | null;", false, false, []⟩ [] s5
      (walkSelections_nil defaultOptions sampleTypeMap sampleSchema OperationTypeNode.query
        "  " none false)
  simp only [doIt, inlineFragmentDoc, convertDefinition]
  rw [s6]
  rfl

/-- Claim C5, evaluated at the failing input: the walker marks the
top-level anonymous inline fragment partial because of its include
directive (second conjunct), yet the document conversion of the decorated
document is literally identical to that of the undecorated one (first
conjunct), and its rendered interface carries neither an optional marker
nor a partial wrapper (third conjunct, by inspection of the literal) —
the partial flag of a top-level selection is silently dropped by the
assembler, refuting monotonic propagation. -/
theorem claim5_counterexample_flag_dropped :
    doIt defaultOptions sampleTypeMap sampleSchema [topLevelDirDoc]
      = doIt defaultOptions sampleTypeMap sampleSchema [topLevelNoDirDoc]
    ∧ getChildSelections defaultOptions sampleTypeMap sampleSchema OperationTypeNode.query
        (Selection.inlineFragment none ["include"] [Selection.field "name" none [] none])
        "  " none false
      = Except.ok ⟨"  name: string | null;", false, true, []⟩
    ∧ doIt defaultOptions sampleTypeMap sampleSchema [topLevelDirDoc]
      = Except.ok [⟨"", "export interface Q \x7b\n  name: string | null;\n\x7d", []⟩] := by
  have t1 : getChildSelections defaultOptions sampleTypeMap sampleSchema OperationTypeNode.query
      (Selection.field "name" none [] none) "  " none false
      = Except.ok ⟨"  name: string | null;", false, false, []⟩ := by
    rw [gcs_field_leaf defaultOptions sampleTypeMap sampleSchema OperationTypeNode.query "name"
      none [] "  " none false (GQLType.scalar "String") rfl]
    rfl
  have t2 : walkSelections defaultOptions sampleTypeMap sampleSchema OperationTypeNode.query
      [Selection.field "name" none [] none] "  " none false
      = Except.ok [⟨"  name: string | null;", false, false, []⟩] :=
    walkSelections_cons_ok defaultOptions sampleTypeMap sampleSchema OperationTypeNode.query
      (Selection.field "name" none [] none) [] "  " none false
      ⟨"  name: string | null;", false, false, []⟩ [] t1
      (walkSelections_nil defaultOptions sampleTypeMap sampleSchema OperationTypeNode.query
        "  " none false)
  have t3 : getChildSelections defaultOptions sampleTypeMap sampleSchema OperationTypeNode.query
      (Selection.inlineFragment none ["include"] [Selection.field "name" none [] none])
      "  " none false
      = Except.ok ⟨"  name: string | null;", false, true, []⟩ := by
    rw [gcs_inlineFragment_anon defaultOptions sampleTypeMap sampleSchema OperationTypeNode.query
      ["include"] [Selection.field "name" none [] none] "  " none false
      [⟨"  name: string | null;", false, false, []⟩] t2]
    rfl
  have t3n : getChildSelections defaultOptions sampleTypeMap sampleSchema OperationTypeNode.query
      (Selection.inlineFragment none [] [Selection.field "name" none [] none])
      "  " none false
      = Except.ok ⟨"  name: string | null;", false, false, []⟩ := by
    rw [gcs_inlineFragment_anon defaultOptions sampleTypeMap sampleSchema OperationTypeNode.query
      [] [Selection.field "name" none [] none] "  " none false
      [⟨"  name: string | null;", false, false, []⟩] t2]
    rfl
  have t4 : walkSelections defaultOptions sampleTypeMap sampleSchema OperationTypeNode.query
      [Selection.inlineFragment none ["include"] [Selection.field "name" none [] none]]
      "  " none false
      = Except.ok [⟨"  name: string | null;", false, true, []⟩] :=
    walkSelections_cons_ok defaultOptions sampleTypeMap sampleSchema OperationTypeNode.query
      (Selection.inlineFragment none ["include"] [Selection.field "name" none [] none]) []
      "  " none false ⟨"  name: string | null;", false, true, []⟩ [] t3
      (walkSelections_nil defaultOptions sampleTypeMap sampleSchema OperationTypeNode.query
        "  " none false)
  have t4n : walkSelections defaultOptions sampleTypeMap sampleSchema OperationTypeNode.query
      [Selection.inlineFragment none [] [Selection.field "name" none [] none]]
      "  " none false
      = Except.ok [⟨"  name: string | null;", false, false, []⟩] :=
    walkSelections_cons_ok defaultOptions sampleTypeMap sampleSchema OperationTypeNode.query
      (Selection.inlineFragment none [] [Selection.field "name" none [] none]) []
      "  " none false ⟨"  name: string | null;", false, false, []⟩ [] t3n
      (walkSelections_nil defaultOptions sampleTypeMap sampleSchema OperationTypeNode.query
        "  " none false)
  have t5 : doIt defaultOptions sampleTypeMap sampleSchema [topLevelDirDoc]
      = Except.ok [⟨"", "export interface Q \x7b\n  name: string | null;\n\x7d", []⟩] := by
    simp only [doIt, topLevelDirDoc, convertDefinition]
    rw [t4]
    rfl
  have t5n : doIt defaultOptions sampleTypeMap sampleSchema [topLevelNoDirDoc]
      = Except.ok [⟨"", "export interface Q \x7b\n  name: string | null;\n\x7d", []⟩] := by
    simp only [doIt, topLevelNoDirDoc, convertDefinition]
    rw [t4n]
    rfl
  exact ⟨t5.trans t5n.symm, t3, t5⟩

/-- Claim C5 amended: partiality does propagate through Field composition
— a non-empty partial non-fragment partition is wrapped by wrapPartialFn
and lands as an intersection operand and in the generated complex types
with its partial flag set, a partial fragment child appears wrapped by
wrapPartialFn, and a field walked with an inherited partial flag is
emitted with its optional flag true — but the flag of a selection that is
not a child of a Field (a top-level selection, or a direct child of an
inline fragment) is not reflected anywhere. -/
theorem claim5_amended_field_composition (o : IOptions) (tm : ITypeMap) (schema : GQLSchema)
    (operation : OperationTypeNode) (fieldName ind : String) (children : List IChildren)
    (c : IChildren) (fname : String) (a : Option String) (ds : List String)
    (sset : Option (List Selection)) (ind2 : String) (p : Option GQLType) (r : IChildren)
    (hpart : (children.filter (fun s => !s.isFragment)).filter (fun nf => nf.isPartialFlag) ≠ [])
    (hc : c ∈ children) (hcf : c.isFragment = true) (hcp : c.isPartialFlag = true)
    (hfield : getChildSelections o tm schema operation (Selection.field fname a ds sset) ind2 p true
      = Except.ok r) :
    o.wrapPartialFn ("\x7b\n" ++ String.intercalate "\n"
        (((children.filter (fun s => !s.isFragment)).filter (fun nf => nf.isPartialFlag)).map
          (fun f => f.iface)) ++ "\n" ++ ind ++ "\x7d")
      ∈ (composeAndOps o fieldName ind children).fst
    ∧ (∃ nm, (⟨o.wrapPartialFn ("\x7b\n" ++ String.intercalate "\n"
        (((children.filter (fun s => !s.isFragment)).filter (fun nf => nf.isPartialFlag)).map
          (fun f => f.iface)) ++ "\n" ++ ind ++ "\x7d"), true, nm⟩ : IComplexTypeSignature)
        ∈ (composeAndOps o fieldName ind children).snd)
    ∧ o.wrapPartialFn c.iface ∈ (composeAndOps o fieldName ind children).fst
    ∧ ∃ resolved, r.iface = o.formatInput (ind2 ++ a.getD fname) true resolved := by
  have hne : ((children.filter (fun s => !s.isFragment)).filter
      (fun nf => nf.isPartialFlag)).isEmpty = false := by
    rw [List.isEmpty_eq_false]
    exact hpart
  have hcfrag : c ∈ children.filter (fun s => s.isFragment) :=
    List.mem_filter.mpr ⟨hc, hcf⟩
  refine ⟨?_, ?_, ?_, ?_⟩
  · simp only [composeAndOps, hne, Bool.false_eq_true, if_false, List.mem_append,
      List.mem_singleton]
    exact Or.inl (Or.inr trivial)
  · simp only [composeAndOps, hne, Bool.false_eq_true, if_false, List.mem_append,
      List.mem_singleton]
    exact ⟨o.generateSubTypeInterfaceName fieldName
      (if ((children.filter (fun s => !s.isFragment)).filter
          (fun nf => !nf.isPartialFlag)).isEmpty then 0 else 1),
      Or.inr rfl⟩
  · have hmm : o.wrapPartialFn c.iface
        ∈ (children.filter (fun s => s.isFragment)).map (wrapPossiblePartialFn o) :=
      List.mem_map.mpr ⟨c, hcfrag, by simp [wrapPossiblePartialFn, hcp]⟩
    simp only [composeAndOps, List.mem_append]
    exact Or.inr hmm
  · rcases field_iface_shape o tm schema operation fname a ds sset ind2 p true r hfield
      with ⟨res, hres⟩
    exact ⟨res, by simpa using hres⟩

/-- Claim C5 amended, witnessed at concrete inputs. -/
theorem claim5_witness :
    defaultOptions.wrapPartialFn ("\x7b\n" ++ String.intercalate "\n"
        ((([(⟨"  a?: T;", false, true, []⟩ : IChildren),
            ⟨"IFragmentF", true, true, []⟩].filter (fun s => !s.isFragment)).filter
          (fun nf => nf.isPartialFlag)).map (fun f => f.iface)) ++ "\n" ++ "  " ++ "\x7d")
      ∈ (composeAndOps defaultOptions "fld" "  "
          [⟨"  a?: T;", false, true, []⟩, ⟨"IFragmentF", true, true, []⟩]).fst
    ∧ (∃ nm, (⟨defaultOptions.wrapPartialFn ("\x7b\n" ++ String.intercalate "\n"
        ((([(⟨"  a?: T;", false, true, []⟩ : IChildren),
            ⟨"IFragmentF", true, true, []⟩].filter (fun s => !s.isFragment)).filter
          (fun nf => nf.isPartialFlag)).map (fun f => f.iface)) ++ "\n" ++ "  " ++ "\x7d"),
          true, nm⟩ : IComplexTypeSignature)
        ∈ (composeAndOps defaultOptions "fld" "  "
            [⟨"  a?: T;", false, true, []⟩, ⟨"IFragmentF", true, true, []⟩]).snd)
    ∧ defaultOptions.wrapPartialFn
        (⟨"IFragmentF", true, true, []⟩ : IChildren).iface
      ∈ (composeAndOps defaultOptions "fld" "  "
          [⟨"  a?: T;", false, true, []⟩, ⟨"IFragmentF", true, true, []⟩]).fst
    ∧ ∃ resolved, (⟨"  name?: string | null;", false, false, []⟩ : IChildren).iface
        = defaultOptions.formatInput ("  " ++ Option.getD none "name") true resolved :=
  claim5_amended_field_composition defaultOptions sampleTypeMap sampleSchema
    OperationTypeNode.query "fld" "  "
    [⟨"  a?: T;", false, true, []⟩, ⟨"IFragmentF", true, true, []⟩]
    ⟨"IFragmentF", true, true, []⟩ "name" none [] none "  " (some sampleUserType)
    ⟨"  name?: string | null;", false, false, []⟩
    (by decide) (by decide) rfl rfl
    (by
      rw [gcs_field_leaf defaultOptions sampleTypeMap sampleSchema OperationTypeNode.query
        "name" none [] "  " (some sampleUserType) true (GQLType.scalar "String") rfl]
      rfl)

/-- Claim C7: when the root type requested by an operation kind is absent
from the schema, converting any document containing an operation of that
kind whose first selection is a field aborts the whole conversion with an
error — no output record is produced for any definition. -/
theorem claim7_absent_root_type_aborts (o : IOptions) (tm : ITypeMap) (schema : GQLSchema)
    (k : OperationTypeNode) (nm : Option String) (vars : List VariableDefinitionNode)
    (f : String) (a : Option String) (ds : List String) (ss : Option (List Selection))
    (rest : List Selection) (defs : List Definition)
    (hroot : getOperationFields schema k = none)
    (hmem : Definition.operationDefinition k nm vars (Selection.field f a ds ss :: rest) ∈ defs) :
    ∃ e, doIt o tm schema defs = Except.error e := by
  have hres : resolveField schema k none f = Except.error Err.typeErrorRootGetFields := by
    simp [resolveField, hroot]
  have hwalk := walkSelections_cons_err o tm schema k (Selection.field f a ds ss) rest "  "
    none false Err.typeErrorRootGetFields
    (gcs_field_resolveErr o tm schema k f a ds ss "  " none false
      Err.typeErrorRootGetFields hres)
  exact doIt_error_of_mem o tm schema defs _ Err.typeErrorRootGetFields hmem
    (convertDefinition_opErr o tm schema k nm vars
      (Selection.field f a ds ss :: rest) Err.typeErrorRootGetFields hwalk)

/-- Claim C7 witnessed at a concrete input: a mutation against the sample
schema, which defines no mutation root type. -/
theorem claim7_witness :
    ∃ e, doIt defaultOptions sampleTypeMap sampleSchema
      [Definition.operationDefinition OperationTypeNode.mutation (some "M") []
        [Selection.field "user" none [] none]] = Except.error e :=
  claim7_absent_root_type_aborts defaultOptions sampleTypeMap sampleSchema
    OperationTypeNode.mutation (some "M") [] "user" none [] none []
    [Definition.operationDefinition OperationTypeNode.mutation (some "M") []
      [Selection.field "user" none [] none]]
    rfl (List.mem_singleton.mpr rfl)

end FromQuery
